import Mathlib

set_option maxRecDepth 8000

/-!
Verification of the MusicVisualizer3D audio-reactive visualization pipeline.

The development shallow-embeds the JavaScript sources of the repository:
the feature-extraction arithmetic (`avgRange`, `sensitivityFactor`, the
displacement computation of `updateVisualizer`), the radial vertex
deformation, the render loop (`animate`), preset selection
(`createVisualizerWeb` and the `visualizer:preset` handler), the seek-bar
update (`updateSeekBar` with the `isSeeking` guard), lazy audio
initialization (`unlockAndInitAudio`), and playlist navigation
(`loadTrack`).

JavaScript numbers are modelled as exact rationals (`ℚ`) for the audio
feature arithmetic; vertex positions use `ℝ` because the radial
deformation normalizes vectors with a square root.  Spectrum samples are
naturals (the `Uint8Array` produced by `getByteFrequencyData` holds
values in 0..255).  Exceptions are modelled by explicit failure
parameters; DOM side effects (toasts, text content) are modelled as
state fields.
-/

namespace MusicVisualizer

/-- A spectrum frame: the `Uint8Array` filled by `getByteFrequencyData`,
a list of unsigned 8-bit magnitudes. -/
abbrev SpectrumFrame := List ℕ

/-- `avgRange(array, start, end)` from the source (part_000, lines 401-407):
`len = Math.max(0, Math.min(end, array.length) - start)`; returns `0` when
`len` is zero, otherwise the sum of `array[i]` for `start ≤ i < end` and
`i < array.length`, divided by `len`.  (`end` is a Lean keyword, so the
parameter is called `stop`; natural subtraction is truncated, which is
exactly the `Math.max(0, ...)` guard.) -/
def avgRange (array : List ℕ) (start stop : ℕ) : ℚ :=
  let len : ℕ := min stop array.length - start
  if len = 0 then 0
  else (((array.drop start).take len).sum : ℚ) / len

/-- `bassAvg` in `updateVisualizer` (part_000, line 367): `avgRange(data, 0, 32)`. -/
def bassAvg (data : SpectrumFrame) : ℚ := avgRange data 0 32

/-- `midAvg` in `updateVisualizer` (part_000, line 368): `avgRange(data, 32, 128)`. -/
def midAvg (data : SpectrumFrame) : ℚ := avgRange data 32 128

/-- `sensitivityFactor()` (part_000, lines 359-361):
`0.25 + (sensitivity / 100) * 1.75`. -/
def sensitivityFactor (sensitivity : ℚ) : ℚ :=
  0.25 + (sensitivity / 100) * 1.75

/-- `baseDisp` in `updateVisualizer` (part_000, line 370):
`((bassAvg / 255) * 20 + (midAvg / 255) * 10) * sensitivityFactor()`. -/
def baseDisp (data : SpectrumFrame) (sensitivity : ℚ) : ℚ :=
  ((bassAvg data / 255) * 20 + (midAvg data / 255) * 10) * sensitivityFactor sensitivity

/-- The feature set derived per frame by `updateVisualizer`:
`bassAvg/255` (called `bassIntensity` at line 388), `midAvg/255`, and the
displacement. -/
structure FeatureSet where
  bassEnergy : ℚ
  midEnergy : ℚ
  displacement : ℚ
deriving DecidableEq

/-- The feature extraction of `updateVisualizer`, bundled. -/
def extract (data : SpectrumFrame) (sensitivity : ℚ) : FeatureSet :=
  { bassEnergy := bassAvg data / 255
  , midEnergy := midAvg data / 255
  , displacement := baseDisp data sensitivity }

/-- The displacement formula as the spec states it: mean of samples
`[0,32)` over 255 times 20, plus mean of samples `[32,128)` over 255
times 10, times `0.25 + (s/100)*1.75`.  Defined from the spec's words for
comparison with `baseDisp`. -/
def specDisplacement (data : SpectrumFrame) (s : ℚ) : ℚ :=
  ((((data.take 32).sum : ℚ) / 32 / 255) * 20
    + (((data.drop 32).take 96).sum : ℚ) / 96 / 255 * 10)
    * (0.25 + (s / 100) * 1.75)

/-- The frame used by the spec's scenario: indices `[0,32)` all 255, the
remaining 224 bins (of the 256-bin frame produced with `fftSize = 512`)
all 0. -/
def bassOnlyFrame : SpectrumFrame :=
  List.replicate 32 255 ++ List.replicate 224 0

section FeatureLemmas

/-- `avgRange data 0 32` rewritten through the first 32 samples. -/
theorem bassAvg_eq_take (data : SpectrumFrame) :
    bassAvg data =
      if (data.take 32).length = 0 then 0
      else ((data.take 32).sum : ℚ) / (data.take 32).length := by
  unfold bassAvg avgRange
  have hlen : min 32 data.length - 0 = (data.take 32).length := by
    simp [List.length_take]
  have htake : (data.drop 0).take ((data.take 32).length) = data.take 32 := by
    simp only [List.drop_zero, List.length_take]
    rw [show data.take (min 32 data.length) = (data.take data.length).take 32 by
      rw [List.take_take, Nat.min_comm]]
    rw [List.take_length]
  simp only [hlen, htake]

/-- The first 32 samples determine `bassAvg`. -/
theorem bassAvg_congr (F F2 : SpectrumFrame) (h : F.take 32 = F2.take 32) :
    bassAvg F = bassAvg F2 := by
  rw [bassAvg_eq_take, bassAvg_eq_take, h]

end FeatureLemmas

/-- Claim C1: for every spectrum frame of session length (at least 128
bins; the session uses 256) and every sensitivity `s` in `[0,100]`, the
displacement computed by `updateVisualizer` equals
`(bassEnergy*20 + midEnergy*10) * (0.25 + (s/100)*1.75)` where
`bassEnergy` is the mean of samples `[0,32)` over 255 and `midEnergy` the
mean of samples `[32,128)` over 255; and on the frame whose first 32
samples are 255 and the rest 0, with sensitivity 100, the displacement is
40. -/
theorem displacement_formula (data : SpectrumFrame) (s : ℚ)
    (hlen : 128 ≤ data.length) (_hs0 : 0 ≤ s) (_hs1 : s ≤ 100) :
    baseDisp data s = specDisplacement data s
      ∧ baseDisp bassOnlyFrame 100 = 40 := by
  constructor
  · have hb : bassAvg data = ((data.take 32).sum : ℚ) / 32 := by
      rw [bassAvg_eq_take]
      have h32 : (data.take 32).length = 32 := by
        simp only [List.length_take]
        omega
      rw [h32]
      norm_num
    have hm : midAvg data = (((data.drop 32).take 96).sum : ℚ) / 96 := by
      unfold midAvg avgRange
      have h1 : min 128 data.length = 128 := by omega
      simp only [h1]
      norm_num
    rw [baseDisp, specDisplacement, sensitivityFactor, hb, hm]
  · have hba : bassAvg bassOnlyFrame = 255 := by
      have h2 : bassOnlyFrame.take 32 = List.replicate 32 255 := by
        rw [bassOnlyFrame, List.take_append_of_le_length (by simp)]
        simp
      rw [bassAvg_eq_take, h2]
      simp [List.sum_replicate]
      norm_num
    have hma : midAvg bassOnlyFrame = 0 := by
      have hd : bassOnlyFrame.drop 32 = List.replicate 224 0 := by
        rw [bassOnlyFrame, List.drop_append_of_le_length (by simp)]
        simp
      unfold midAvg avgRange
      have h256 : bassOnlyFrame.length = 256 := by
        rw [bassOnlyFrame]; simp
      have hlw : min 128 bassOnlyFrame.length - 32 = 96 := by
        rw [h256]; decide
      simp only [hlw, hd]
      norm_num [List.take_replicate, List.sum_replicate]
    rw [baseDisp, hba, hma, sensitivityFactor]
    norm_num

/-- Claim C1 witness: the theorem instantiated at the bass-only frame and
sensitivity 100. -/
theorem displacement_formula_witness :
    128 ≤ bassOnlyFrame.length ∧ (0 : ℚ) ≤ 100 ∧ (100 : ℚ) ≤ 100
      ∧ (baseDisp bassOnlyFrame 100 = specDisplacement bassOnlyFrame 100
          ∧ baseDisp bassOnlyFrame 100 = 40) :=
  ⟨by norm_num [bassOnlyFrame], by norm_num, by norm_num,
    displacement_formula bassOnlyFrame 100 (by norm_num [bassOnlyFrame])
      (by norm_num) (by norm_num)⟩

/-- Claim C2: for every frame of 8-bit samples, the extracted
`bassEnergy` lies in `[0,1]`, and any two frames agreeing on their first
32 samples yield the same `bassEnergy`, for any sensitivities. -/
theorem bassEnergy_bounded_pure (F F2 : SpectrumFrame) (s s2 : ℚ)
    (hF : ∀ x ∈ F, x ≤ 255) (hagree : F.take 32 = F2.take 32) :
    (0 ≤ (extract F s).bassEnergy ∧ (extract F s).bassEnergy ≤ 1)
      ∧ (extract F s).bassEnergy = (extract F2 s2).bassEnergy := by
  refine ⟨⟨?_, ?_⟩, ?_⟩
  · show 0 ≤ bassAvg F / 255
    rw [bassAvg_eq_take]
    split
    · norm_num
    · positivity
  · show bassAvg F / 255 ≤ 1
    rw [bassAvg_eq_take]
    split
    · norm_num
    · rename (List.take 32 F).length = 0 → False => hne
      have hlen : 0 < (F.take 32).length := Nat.pos_of_ne_zero hne
      have hsum : (F.take 32).sum ≤ (F.take 32).length * 255 := by
        calc (F.take 32).sum ≤ (F.take 32).length • 255 :=
              List.sum_le_card_nsmul _ 255
                (fun x hx => hF x (List.take_subset 32 F hx))
          _ = (F.take 32).length * 255 := by simp
      rw [div_le_one (by norm_num)]
      rw [div_le_iff₀ (by exact_mod_cast hlen)]
      calc ((F.take 32).sum : ℚ) ≤ (F.take 32).length * 255 := by
            exact_mod_cast hsum
        _ = 255 * (F.take 32).length := by ring
  · show bassAvg F / 255 = bassAvg F2 / 255
    rw [bassAvg_congr F F2 hagree]

/-- Claim C2 witness: two concrete frames agreeing on their first 32
samples. -/
theorem bassEnergy_bounded_pure_witness :
    (∀ x ∈ List.replicate 32 (100 : ℕ), x ≤ 255)
      ∧ (List.replicate 32 (100 : ℕ)).take 32
          = (List.replicate 32 (100 : ℕ) ++ [9]).take 32
      ∧ ((0 ≤ (extract (List.replicate 32 100) 1).bassEnergy
            ∧ (extract (List.replicate 32 100) 1).bassEnergy ≤ 1)
          ∧ (extract (List.replicate 32 100) 1).bassEnergy
              = (extract (List.replicate 32 100 ++ [9]) 2).bassEnergy) :=
  ⟨by decide, by decide,
    bassEnergy_bounded_pure (List.replicate 32 100)
      (List.replicate 32 100 ++ [9]) 1 2 (by decide) (by decide)⟩

/-- Claim C7: the band average `avgRange` is total; it returns 0 whenever
the effective range `[start, min end length)` is empty (which covers the
empty frame and any frame shorter than `start`), and the empty frame is
treated as zero-energy input (all extracted features are 0). -/
theorem avgRange_empty_safe (array : List ℕ) (start stop : ℕ) (s : ℚ)
    (h : min stop array.length ≤ start) :
    avgRange array start stop = 0
      ∧ extract ([] : SpectrumFrame) s = ⟨0, 0, 0⟩ := by
  constructor
  · unfold avgRange
    have hz : min stop array.length - start = 0 := by omega
    rw [hz]
    norm_num
  · have hb : bassAvg ([] : SpectrumFrame) = 0 := by
      unfold bassAvg avgRange
      norm_num
    have hm : midAvg ([] : SpectrumFrame) = 0 := by
      unfold midAvg avgRange
      norm_num
    unfold extract baseDisp
    rw [hb, hm]
    norm_num

/-- Claim C7 witness: the empty frame with the bass range. -/
theorem avgRange_empty_safe_witness :
    min 32 (List.length ([] : List ℕ)) ≤ 0
      ∧ (avgRange [] 0 32 = 0
          ∧ extract ([] : SpectrumFrame) 60 = ⟨0, 0, 0⟩) :=
  ⟨by decide, avgRange_empty_safe [] 0 32 60 (by decide)⟩

/-- A 3-component vector, as `THREE.Vector3`. -/
structure Vec3 where
  x : ℝ
  y : ℝ
  z : ℝ

/-- Two `Vec3`s with equal components are equal. -/
theorem Vec3.ext3 {v w : Vec3} (hx : v.x = w.x) (hy : v.y = w.y)
    (hz : v.z = w.z) : v = w := by
  cases v; cases w; simp_all

/-- `THREE.Vector3.length()`: the Euclidean norm. -/
noncomputable def Vec3.vlen (v : Vec3) : ℝ :=
  Real.sqrt (v.x ^ 2 + v.y ^ 2 + v.z ^ 2)

open Classical in
/-- `THREE.Vector3.normalize()`: `divideScalar(length() || 1)`; the zero
vector is divided by 1 and stays zero. -/
noncomputable def Vec3.normalize (v : Vec3) : Vec3 :=
  let l := if Vec3.vlen v = 0 then 1 else Vec3.vlen v
  ⟨v.x / l, v.y / l, v.z / l⟩

/-- `THREE.Vector3.multiplyScalar`. -/
noncomputable def Vec3.multiplyScalar (v : Vec3) (s : ℝ) : Vec3 :=
  ⟨v.x * s, v.y * s, v.z * s⟩

/-- `THREE.Vector3.add` (componentwise). -/
noncomputable def Vec3.add (v w : Vec3) : Vec3 :=
  ⟨v.x + w.x, v.y + w.y, v.z + w.z⟩

/-- The body of the per-vertex loop of `updateVisualizer` (part_000,
lines 372-384): `direction = originalVector.clone().normalize();
newPos = originalVector.clone().add(direction.multiplyScalar(baseDisp))`. -/
noncomputable def updateVertex (orig : Vec3) (disp : ℝ) : Vec3 :=
  orig.add ((orig.normalize).multiplyScalar disp)

/-- Group a flat position buffer into `(x, y, z)` triples (the loop reads
indices `i3`, `i3+1`, `i3+2` for `i < length / 3`); a trailing remainder
shorter than a triple is not visited by the loop. -/
def toVec3s : List ℝ → List Vec3
  | x :: y :: z :: rest => ⟨x, y, z⟩ :: toVec3s rest
  | _ => []

/-- Flatten a list of `(x, y, z)` triples back into a flat buffer. -/
def flat3 : List Vec3 → List ℝ
  | [] => []
  | v :: rest => v.x :: v.y :: v.z :: flat3 rest

/-- The `newPositions` buffer computed by `updateVisualizer` from the
immutable `originalPositions` buffer: a fresh
`Float32Array(originalPositions.length)` (all slots 0), whose first
`3 * (length / 3)` slots are filled by the radial-displacement loop; the
`length % 3` trailing slots (always 0 in practice, vertex buffers being
triples) keep their initial 0. -/
noncomputable def updateVisualizerPositions (orig : List ℝ) (disp : ℝ) : List ℝ :=
  flat3 ((toVec3s orig).map (fun v => updateVertex v disp))
    ++ List.replicate (orig.length % 3) 0

/-- One reactive frame's position computation as a function of the
previous frame's positions: `updateVisualizer` never reads the current
position buffer (it writes a fresh `newPositions` from
`originalPositions`), so the argument is ignored. -/
noncomputable def reactiveStep (orig : List ℝ) (disp : ℝ) (_current : List ℝ) :
    List ℝ :=
  updateVisualizerPositions orig disp

/-- Grouping inverts flattening. -/
theorem toVec3s_flat3 : ∀ l : List Vec3, toVec3s (flat3 l) = l
  | [] => rfl
  | v :: rest => by simp [flat3, toVec3s, toVec3s_flat3 rest]

/-- Flattening inverts grouping on buffers of triples. -/
theorem flat3_toVec3s : ∀ (l : List ℝ), l.length % 3 = 0 → flat3 (toVec3s l) = l
  | [], _ => rfl
  | [x], h => by simp at h
  | [x, y], h => by simp at h
  | x :: y :: z :: rest, h => by
      have h3 : rest.length % 3 = 0 := by
        simp [List.length_cons] at h
        omega
      simp [toVec3s, flat3, flat3_toVec3s rest h3]

/-- Zero displacement leaves a vertex at its base position. -/
theorem updateVertex_zero (v : Vec3) : updateVertex v 0 = v := by
  unfold updateVertex Vec3.add Vec3.multiplyScalar
  exact Vec3.ext3 (by simp) (by simp) (by simp)

/-- `avgRange` of an all-zero frame is 0 for any band. -/
theorem avgRange_replicate_zero (m a b : ℕ) :
    avgRange (List.replicate m 0) a b = 0 := by
  unfold avgRange
  simp [List.drop_replicate, List.take_replicate, List.sum_replicate]

/-- Claim C3: every reactive frame recomputes each vertex as base
position plus the base direction scaled by the frame's displacement,
from the immutable base buffer only (the previous frame's positions are
ignored); an all-zero spectrum frame gives displacement 0 and leaves the
positions at the base positions; and iterating the same frame any
positive number of times yields the same fixed buffer (no drift). -/
theorem radial_deformation (orig cur cur2 : List ℝ) (disp : ℝ) (s : ℚ)
    (m n : ℕ) (h3 : orig.length % 3 = 0) (hn : 1 ≤ n) :
    reactiveStep orig disp cur = reactiveStep orig disp cur2
      ∧ toVec3s (updateVisualizerPositions orig disp)
          = (toVec3s orig).map (fun v => updateVertex v disp)
      ∧ baseDisp (List.replicate m 0) s = 0
      ∧ updateVisualizerPositions orig 0 = orig
      ∧ (fun p => reactiveStep orig disp p)^[n] cur
          = updateVisualizerPositions orig disp := by
  refine ⟨rfl, ?_, ?_, ?_, ?_⟩
  · rw [updateVisualizerPositions, h3]
    simp [toVec3s_flat3]
  · unfold baseDisp bassAvg midAvg
    rw [avgRange_replicate_zero, avgRange_replicate_zero]
    ring
  · rw [updateVisualizerPositions, h3]
    simp [updateVertex_zero, flat3_toVec3s orig h3]
  · obtain ⟨k, rfl⟩ : ∃ k, n = k + 1 := ⟨n - 1, by omega⟩
    rw [Function.iterate_succ_apply']
    rfl

/-- Claim C3 witness: a one-vertex base buffer, two distinct previous
position buffers, displacement 5, a 4-bin all-zero frame, one iteration. -/
theorem radial_deformation_witness :
    ([(1 : ℝ), 2, 2].length % 3 = 0) ∧ (1 ≤ 1)
      ∧ (reactiveStep [(1 : ℝ), 2, 2] 5 [] = reactiveStep [(1 : ℝ), 2, 2] 5 [0]
          ∧ toVec3s (updateVisualizerPositions [(1 : ℝ), 2, 2] 5)
              = (toVec3s [(1 : ℝ), 2, 2]).map (fun v => updateVertex v 5)
          ∧ baseDisp (List.replicate 4 0) 60 = 0
          ∧ updateVisualizerPositions [(1 : ℝ), 2, 2] 0 = [(1 : ℝ), 2, 2]
          ∧ (fun p => reactiveStep [(1 : ℝ), 2, 2] 5 p)^[1] []
              = updateVisualizerPositions [(1 : ℝ), 2, 2] 5) :=
  ⟨rfl, le_refl 1,
    radial_deformation [(1 : ℝ), 2, 2] [] [0] 5 60 4 1 rfl (le_refl 1)⟩

/-- Claim C9: `sensitivityFactor 0 = 0.25`, `sensitivityFactor 100 = 2`,
and the map is strictly monotone on `[0, 100]`. -/
theorem sensitivityFactor_endpoints_mono (a b : ℚ)
    (_h0 : 0 ≤ a) (hab : a < b) (_hb : b ≤ 100) :
    sensitivityFactor 0 = 0.25 ∧ sensitivityFactor 100 = 2
      ∧ sensitivityFactor a < sensitivityFactor b := by
  refine ⟨by norm_num [sensitivityFactor], by norm_num [sensitivityFactor], ?_⟩
  unfold sensitivityFactor
  have h : a * (1.75 / 100) < b * (1.75 / 100) := by
    apply mul_lt_mul_of_pos_right hab
    norm_num
  calc 0.25 + a / 100 * 1.75 = 0.25 + a * (1.75 / 100) := by ring
    _ < 0.25 + b * (1.75 / 100) := by linarith
    _ = 0.25 + b / 100 * 1.75 := by ring

/-- Claim C9 witness: endpoints 0 and 100. -/
theorem sensitivityFactor_endpoints_mono_witness :
    (0 : ℚ) ≤ 0 ∧ (0 : ℚ) < 100 ∧ (100 : ℚ) ≤ 100
      ∧ (sensitivityFactor 0 = 0.25 ∧ sensitivityFactor 100 = 2
          ∧ sensitivityFactor 0 < sensitivityFactor 100) :=
  ⟨le_refl 0, by norm_num, le_refl 100,
    sensitivityFactor_endpoints_mono 0 100 (le_refl 0) (by norm_num) (le_refl 100)⟩

/-- The mutable scene state touched by `animate`/`updateVisualizer`:
mesh rotation, particle rotation, the current vertex position buffer, the
line material's HSL color, and the particle layer's scale and opacity. -/
structure SceneState where
  rotY : ℚ
  rotX : ℚ
  particleRotY : ℚ
  positions : List ℝ
  hue : ℚ
  sat : ℚ
  light : ℚ
  particleScale : ℚ
  particleOpacity : ℚ

/-- `updateVisualizer(data)` (part_000, lines 363-399): guarded by
`if (!web || !originalPositions) return;`, then computes `bassAvg`,
`midAvg`, `baseDisp`, writes the fresh position buffer, sets the material
color from `bassIntensity` with a preset-specific hue, and scales/fades
the particle layer when it is visible. -/
noncomputable def updateVisualizerScene (preset : String) (webExists : Bool)
    (origPositions : Option (List ℝ)) (particlesVisible : Bool)
    (sensitivity : ℚ) (data : SpectrumFrame) (st : SceneState) : SceneState :=
  match origPositions with
  | none => st
  | some orig =>
    if webExists = false then st
    else
      let bass := bassAvg data
      let mid := midAvg data
      let sens := sensitivityFactor sensitivity
      let disp := ((bass / 255) * 20 + (mid / 255) * 10) * sens
      let bassIntensity := bass / 255
      let hue :=
        if preset = "wave-tunnel" then 0.55 - bassIntensity * 0.4
        else if preset = "particle-burst" then 0.07 + bassIntensity * 0.15
        else 0.6 - bassIntensity * 0.6
      { st with
        positions := updateVisualizerPositions orig ((disp : ℚ) : ℝ)
        hue := hue
        sat := 0.8
        light := 0.5
        particleScale :=
          if particlesVisible then 1 + (mid / 255) * 0.15 * sens
          else st.particleScale
        particleOpacity :=
          if particlesVisible then 0.35 + bassIntensity * 0.4
          else st.particleOpacity }

/-- The outcome of one `animate()` tick: the new scene state, whether
`getByteFrequencyData` was invoked on the analyser, and whether
`renderer.render` ran (it always does). -/
structure FrameResult where
  scene : SceneState
  polledSpectrum : Bool
  rendered : Bool

/-- `animate()` (part_000, lines 343-357): advance the idle rotations,
then — only when `isPlaying && analyser` — poll the spectrum and run the
reactive update, and finally render. -/
noncomputable def animate (preset : String)
    (webExists particlesVisible isPlaying analyserReady : Bool)
    (origPositions : Option (List ℝ)) (sensitivity : ℚ)
    (data : SpectrumFrame) (st : SceneState) : FrameResult :=
  let st1 :=
    if webExists then
      { st with
        rotY := st.rotY + (if preset = "wave-tunnel" then 0.002 else 0.001)
        rotX := st.rotX + 0.0005 }
    else st
  let st2 :=
    if particlesVisible then { st1 with particleRotY := st1.particleRotY - 0.0004 }
    else st1
  if isPlaying && analyserReady then
    { scene := updateVisualizerScene preset webExists origPositions
        particlesVisible sensitivity data st2
      polledSpectrum := true
      rendered := true }
  else
    { scene := st2, polledSpectrum := false, rendered := true }

/-- Claim C4: in every tick in which `isPlaying` is false the analyser is
not polled and the reactive update of positions and color does not run;
the loop still renders and advances the idle rotation. -/
theorem idle_frame_no_poll (preset : String)
    (webExists particlesVisible isPlaying analyserReady : Bool)
    (origPositions : Option (List ℝ)) (sensitivity : ℚ)
    (data : SpectrumFrame) (st : SceneState) (h : isPlaying = false) :
    (animate preset webExists particlesVisible isPlaying analyserReady
        origPositions sensitivity data st).polledSpectrum = false
      ∧ (animate preset webExists particlesVisible isPlaying analyserReady
          origPositions sensitivity data st).scene.positions = st.positions
      ∧ (animate preset webExists particlesVisible isPlaying analyserReady
          origPositions sensitivity data st).scene.hue = st.hue
      ∧ (animate preset webExists particlesVisible isPlaying analyserReady
          origPositions sensitivity data st).rendered = true
      ∧ (animate preset webExists particlesVisible isPlaying analyserReady
          origPositions sensitivity data st).scene.rotY
          = (if webExists
              then st.rotY + (if preset = "wave-tunnel" then 0.002 else 0.001)
              else st.rotY) := by
  subst h
  cases webExists <;> cases particlesVisible <;> simp [animate]

/-- Claim C4 witness: a concrete idle tick (track loaded, analyser ready,
but paused). -/
theorem idle_frame_no_poll_witness :
    (false = false)
      ∧ ((animate "cosmic-grid" true true false true (some [(1 : ℝ), 2, 2]) 60
            bassOnlyFrame ⟨0, 0, 0, [(1 : ℝ), 2, 2], 0.6, 0.8, 0.5, 1, 0.6⟩).polledSpectrum = false
          ∧ (animate "cosmic-grid" true true false true (some [(1 : ℝ), 2, 2]) 60
              bassOnlyFrame ⟨0, 0, 0, [(1 : ℝ), 2, 2], 0.6, 0.8, 0.5, 1, 0.6⟩).scene.positions
              = (⟨0, 0, 0, [(1 : ℝ), 2, 2], 0.6, 0.8, 0.5, 1, 0.6⟩ : SceneState).positions
          ∧ (animate "cosmic-grid" true true false true (some [(1 : ℝ), 2, 2]) 60
              bassOnlyFrame ⟨0, 0, 0, [(1 : ℝ), 2, 2], 0.6, 0.8, 0.5, 1, 0.6⟩).scene.hue
              = (⟨0, 0, 0, [(1 : ℝ), 2, 2], 0.6, 0.8, 0.5, 1, 0.6⟩ : SceneState).hue
          ∧ (animate "cosmic-grid" true true false true (some [(1 : ℝ), 2, 2]) 60
              bassOnlyFrame ⟨0, 0, 0, [(1 : ℝ), 2, 2], 0.6, 0.8, 0.5, 1, 0.6⟩).rendered = true
          ∧ (animate "cosmic-grid" true true false true (some [(1 : ℝ), 2, 2]) 60
              bassOnlyFrame ⟨0, 0, 0, [(1 : ℝ), 2, 2], 0.6, 0.8, 0.5, 1, 0.6⟩).scene.rotY
              = (if true
                  then (⟨0, 0, 0, [(1 : ℝ), 2, 2], 0.6, 0.8, 0.5, 1, 0.6⟩ : SceneState).rotY
                      + (if "cosmic-grid" = "wave-tunnel" then 0.002 else 0.001)
                  else (⟨0, 0, 0, [(1 : ℝ), 2, 2], 0.6, 0.8, 0.5, 1, 0.6⟩ : SceneState).rotY)) :=
  ⟨rfl,
    idle_frame_no_poll "cosmic-grid" true true false true (some [(1 : ℝ), 2, 2]) 60
      bassOnlyFrame ⟨0, 0, 0, [(1 : ℝ), 2, 2], 0.6, 0.8, 0.5, 1, 0.6⟩ rfl⟩

/-- The installed scene object (`web`, a `Line2`): its geometry's
position buffer and its material color. -/
structure WebObj where
  positions : List ℝ
  color : ℕ

/-- The preset-related globals of part_000: the installed `web` object,
the `originalPositions` base buffer, and the `preset` id string. -/
structure VisState where
  web : Option WebObj
  originalPositions : Option (List ℝ)
  preset : String

/-- The three procedural base geometries of `createVisualizerWeb`
(`TorusKnotGeometry(28, 6, 200, 16)`, `DodecahedronGeometry(40, 6)`,
`IcosahedronGeometry(40, 8)`). -/
inductive GeomKind where
  | torusKnot
  | dodecahedron
  | icosahedron

/-- The `switch (nextPreset)` of `createVisualizerWeb` (part_000,
lines 81-95), geometry arm: `cosmic-grid` is also the `default` arm. -/
def geomKindOf (p : String) : GeomKind :=
  if p = "wave-tunnel" then GeomKind.torusKnot
  else if p = "particle-burst" then GeomKind.dodecahedron
  else GeomKind.icosahedron

/-- The `switch (nextPreset)` of `createVisualizerWeb`, `lineColor` arm. -/
def lineColorOf (p : String) : ℕ :=
  if p = "wave-tunnel" then 0x22d3ee
  else if p = "particle-burst" then 0xf97316
  else 0x4299e1

/-- `createVisualizerWeb(nextPreset)` (part_000, lines 72-114): dispose
and remove the previous `web` (so no field of the old state survives),
generate the base edge geometry for the preset, snapshot it into
`originalPositions`, install a fresh `Line2` with the preset's color, and
record the preset id.  `edgesOf` stands for the deterministic external
geometry generator (`new THREE.EdgesGeometry(baseGeometry
).attributes.position.array` for the preset's fixed constructor
arguments); it is a parameter because THREE.js is an external black box,
and determinism — same preset, same buffer — is all the proofs use. -/
def createVisualizerWeb (edgesOf : GeomKind → List ℝ) (nextPreset : String)
    (_st : VisState) : VisState :=
  let base := edgesOf (geomKindOf nextPreset)
  { web := some { positions := base, color := lineColorOf nextPreset }
    originalPositions := some base
    preset := nextPreset }

/-- The `visualizer:preset` event handler (part_000, lines 203-209):
validate the id against the preset list, then rebuild. -/
def onPresetEvent (edgesOf : GeomKind → List ℝ) (detail : String)
    (st : VisState) : VisState :=
  if detail = "cosmic-grid" ∨ detail = "wave-tunnel" ∨ detail = "particle-burst"
  then createVisualizerWeb edgesOf detail st
  else st

/-- Claim C5: preset selection is idempotent — selecting the same preset
id twice in a row (through the event handler, or calling
`createVisualizerWeb` directly) leaves the base state (base vertex
buffer, base color, installed geometry content, preset id) identical to
selecting it once. -/
theorem preset_select_idempotent (edgesOf : GeomKind → List ℝ) (x : String)
    (st : VisState) :
    onPresetEvent edgesOf x (onPresetEvent edgesOf x st) = onPresetEvent edgesOf x st
      ∧ createVisualizerWeb edgesOf x (createVisualizerWeb edgesOf x st)
          = createVisualizerWeb edgesOf x st := by
  constructor
  · by_cases h : (x = "cosmic-grid" ∨ x = "wave-tunnel" ∨ x = "particle-burst")
    · simp only [onPresetEvent, if_pos h]
      rfl
    · simp only [onPresetEvent, if_neg h]
  · rfl

/-- The seek-bar-related view state: the range control's value, the CSS
fill width, and the two time displays. -/
structure PlayerView where
  seekValue : ℚ
  seekBeforeWidth : ℚ
  currentTimeText : String
  totalDurationText : String

/-- The audio element as `updateSeekBar` reads it.  `durationFinite`
models `isFinite(audioElement.duration)` (duration is `NaN` before
metadata and `Infinity` for endless streams). -/
structure AudioElem where
  currentTime : ℚ
  duration : ℚ
  durationFinite : Bool

/-- `formatTime(seconds)` (part_000, lines 587-592); `isNan` models
`isNaN(seconds)`.  For the nonnegative times that occur,
`Math.floor(seconds % 60)` is the floor of `seconds - 60 *
Math.floor(seconds / 60)`. -/
def formatTime (isNan : Bool) (seconds : ℚ) : String :=
  if isNan then "0:00"
  else
    let minutes : ℤ := ⌊seconds / 60⌋
    let secs : ℤ := ⌊seconds - 60 * (⌊seconds / 60⌋ : ℚ)⌋
    toString minutes ++ ":"
      ++ (if secs < 10 then "0" ++ toString secs else toString secs)

/-- `updateSeekBar()` (part_000, lines 564-573): return unchanged when
there is no audio element or the duration is not finite; write
`seekBar.value` from live playback time only when `isSeeking` is false;
always refresh the fill width from the (possibly unchanged) value and the
two time texts.  (For a finite duration the `isNaN(progress)` guard of
the source only fires at `0/0`, where rational division also yields 0.) -/
def updateSeekBar (audio : Option AudioElem) (isSeeking : Bool)
    (view : PlayerView) : PlayerView :=
  match audio with
  | none => view
  | some a =>
    if a.durationFinite = false then view
    else
      let v := if isSeeking then view.seekValue
               else a.currentTime / a.duration * 100
      { seekValue := v
        seekBeforeWidth := v
        currentTimeText := formatTime false a.currentTime
        totalDurationText := formatTime false a.duration }

/-- `seekToPosition()` (part_000, lines 499-502): set the playback time
from the seek-bar value, guarded on a finite duration. -/
def seekToPosition (audio : Option AudioElem) (view : PlayerView) :
    Option AudioElem :=
  match audio with
  | none => none
  | some a =>
    if a.durationFinite = false then some a
    else some { a with currentTime := view.seekValue / 100 * a.duration }

/-- The `seekBar.onmouseup` / `touchend` handler (part_000, lines
183-185): clear `isSeeking`, then `seekToPosition()`.  Returns the new
`isSeeking` flag and the new audio state. -/
def onSeekPointerUp (audio : Option AudioElem) (view : PlayerView) :
    Bool × Option AudioElem :=
  (false, seekToPosition audio view)

/-- Claim C6: while `isSeeking` is set, `updateSeekBar` never writes the
seek-bar value from live playback time (the value is left exactly as the
input handler put it); the pointer-up handler clears the guard; and with
the guard clear, `updateSeekBar` writes the live playback position
`currentTime / duration * 100`. -/
theorem seek_guard_suppresses_updates (audio : Option AudioElem)
    (a : AudioElem) (view : PlayerView) (hfin : a.durationFinite = true) :
    (updateSeekBar audio true view).seekValue = view.seekValue
      ∧ (onSeekPointerUp audio view).1 = false
      ∧ (updateSeekBar (some a) false view).seekValue
          = a.currentTime / a.duration * 100 := by
  refine ⟨?_, rfl, ?_⟩
  · cases audio with
    | none => rfl
    | some b =>
      unfold updateSeekBar
      by_cases hb : b.durationFinite = false
      · simp [hb]
      · simp [hb]
  · unfold updateSeekBar
    simp [hfin]

/-- Claim C6 witness: playback at 30s of 100s, seek bar dragged to 42. -/
theorem seek_guard_suppresses_updates_witness :
    (AudioElem.durationFinite ⟨30, 100, true⟩ = true)
      ∧ ((updateSeekBar (some ⟨30, 100, true⟩) true ⟨42, 42, "0:30", "1:40"⟩).seekValue
            = (⟨42, 42, "0:30", "1:40"⟩ : PlayerView).seekValue
          ∧ (onSeekPointerUp (some ⟨30, 100, true⟩) ⟨42, 42, "0:30", "1:40"⟩).1 = false
          ∧ (updateSeekBar (some ⟨30, 100, true⟩) false ⟨42, 42, "0:30", "1:40"⟩).seekValue
              = AudioElem.currentTime ⟨30, 100, true⟩
                  / AudioElem.duration ⟨30, 100, true⟩ * 100) :=
  ⟨rfl,
    seek_guard_suppresses_updates (some ⟨30, 100, true⟩) ⟨30, 100, true⟩
      ⟨42, 42, "0:30", "1:40"⟩ rfl⟩

/-- The audio-graph globals assigned inside `unlockAndInitAudio`'s `try`
block, plus the toast channel (`showToast` appends `(text, type)`). -/
structure AudioInitState where
  audioContext : Bool
  audioElementSet : Bool
  analyserSet : Bool
  sourceConnected : Bool
  listenersWired : Bool
  toasts : List (String × String)
deriving DecidableEq

/-- The page-load state: nothing constructed, no toasts shown. -/
def initialAudioState : AudioInitState :=
  { audioContext := false, audioElementSet := false, analyserSet := false
    sourceConnected := false, listenersWired := false, toasts := [] }

/-- `unlockAndInitAudio()` (part_000, lines 139-166).  The `try` block
runs five fallible stages in order: 0 `new AudioContext()`, 1
`new Audio()` + volume, 2 `createAnalyser()` + `dataArray`, 3
`createMediaElementSource` + `connect`s, 4 the five audio-element event
listeners; then `showToast("Audio system ready!", "success")`.  `failAt`
says which stage (if any) throws: the `catch` then fires, stages before
`failAt` keep their freshly assigned globals, stages from `failAt` on
keep their previous values, and the error toast is shown.  The function
is a no-op once `audioContext` is set (`if (audioContext) return;`). -/
def unlockAndInitAudio (failAt : Option (Fin 5)) (st : AudioInitState) :
    AudioInitState :=
  if st.audioContext then st
  else
    match failAt with
    | none =>
      { audioContext := true, audioElementSet := true, analyserSet := true
        sourceConnected := true, listenersWired := true
        toasts := st.toasts ++ [("Audio system ready!", "success")] }
    | some k =>
      { audioContext := if 0 < k.val then true else st.audioContext
        audioElementSet := if 1 < k.val then true else st.audioElementSet
        analyserSet := if 2 < k.val then true else st.analyserSet
        sourceConnected := if 3 < k.val then true else st.sourceConnected
        listenersWired := if 4 < k.val then true else st.listenersWired
        toasts := st.toasts ++ [("Error: Could not initialize audio.", "error")] }

/-- Claim C8 counterexample: when graph construction throws at stage 3
(`createMediaElementSource`), `audioContext` is already assigned, so the
`if (audioContext) return;` guard makes every later call — even one whose
construction would now succeed — a no-op: the source stays with no
listeners and no connected graph, and no retry can ever succeed.  This
refutes "a later retry of initialization can succeed" as stated for every
construction failure. -/
theorem audio_init_retry_cex :
    unlockAndInitAudio none (unlockAndInitAudio (some 3) initialAudioState)
        = unlockAndInitAudio (some 3) initialAudioState
      ∧ (unlockAndInitAudio (some 3) initialAudioState).listenersWired = false
      ∧ (unlockAndInitAudio (some 3) initialAudioState).sourceConnected = false
      ∧ (unlockAndInitAudio (some 3) initialAudioState).audioContext = true :=
  ⟨rfl, rfl, rfl, rfl⟩

/-- Claim C8 (amended): whenever audio-graph construction throws (at any
stage `k`), the exception is caught at the `unlockAndInitAudio` boundary
— the function returns normally — the error is reported once on the
toast channel, the play/pause listeners are never wired (so `isPlaying`
stays false and every `animate` tick keeps rendering without polling the
analyser, whatever its state); and when the failing stage is stage 0
(`new AudioContext()` itself), `audioContext` is still unset and a later
fault-free retry succeeds, wiring the full graph and reporting success. -/
theorem audio_init_failure_caught (k : Fin 5) (st : AudioInitState)
    (preset : String) (webExists particlesVisible : Bool)
    (origPositions : Option (List ℝ)) (sensitivity : ℚ)
    (data : SpectrumFrame) (scene : SceneState)
    (h : st.audioContext = false) (hw : st.listenersWired = false) :
    (unlockAndInitAudio (some k) st).toasts
        = st.toasts ++ [("Error: Could not initialize audio.", "error")]
      ∧ (unlockAndInitAudio (some k) st).listenersWired = false
      ∧ (animate preset webExists particlesVisible false
          (unlockAndInitAudio (some k) st).analyserSet origPositions
          sensitivity data scene).polledSpectrum = false
      ∧ (animate preset webExists particlesVisible false
          (unlockAndInitAudio (some k) st).analyserSet origPositions
          sensitivity data scene).rendered = true
      ∧ (unlockAndInitAudio none (unlockAndInitAudio (some 0) st)).audioContext
          = true
      ∧ (unlockAndInitAudio none (unlockAndInitAudio (some 0) st)).listenersWired
          = true
      ∧ (unlockAndInitAudio none (unlockAndInitAudio (some 0) st)).toasts
          = st.toasts ++ [("Error: Could not initialize audio.", "error"),
              ("Audio system ready!", "success")] := by
  have h4 : ¬(4 < k.val) := by omega
  refine ⟨?_, ?_, ?_, ?_, ?_, ?_, ?_⟩
  · simp [unlockAndInitAudio, h]
  · simp [unlockAndInitAudio, h, h4, hw]
  · cases webExists <;> cases particlesVisible <;> simp [animate]
  · cases webExists <;> cases particlesVisible <;> simp [animate]
  · simp [unlockAndInitAudio, h]
  · simp [unlockAndInitAudio, h]
  · simp [unlockAndInitAudio, h]

/-- Claim C8 witness: stage-3 failure from the page-load state, with a
concrete idle frame. -/
theorem audio_init_failure_caught_witness :
    initialAudioState.audioContext = false
      ∧ initialAudioState.listenersWired = false
      ∧ ((unlockAndInitAudio (some 3) initialAudioState).toasts
            = initialAudioState.toasts
                ++ [("Error: Could not initialize audio.", "error")]
          ∧ (unlockAndInitAudio (some 3) initialAudioState).listenersWired = false
          ∧ (animate "cosmic-grid" true true false
              (unlockAndInitAudio (some 3) initialAudioState).analyserSet
              (some [(1 : ℝ), 2, 2]) 60 bassOnlyFrame
              ⟨0, 0, 0, [(1 : ℝ), 2, 2], 0.6, 0.8, 0.5, 1, 0.6⟩).polledSpectrum = false
          ∧ (animate "cosmic-grid" true true false
              (unlockAndInitAudio (some 3) initialAudioState).analyserSet
              (some [(1 : ℝ), 2, 2]) 60 bassOnlyFrame
              ⟨0, 0, 0, [(1 : ℝ), 2, 2], 0.6, 0.8, 0.5, 1, 0.6⟩).rendered = true
          ∧ (unlockAndInitAudio none
              (unlockAndInitAudio (some 0) initialAudioState)).audioContext = true
          ∧ (unlockAndInitAudio none
              (unlockAndInitAudio (some 0) initialAudioState)).listenersWired = true
          ∧ (unlockAndInitAudio none
              (unlockAndInitAudio (some 0) initialAudioState)).toasts
              = initialAudioState.toasts
                  ++ [("Error: Could not initialize audio.", "error"),
                      ("Audio system ready!", "success")]) :=
  ⟨rfl, rfl,
    audio_init_failure_caught 3 initialAudioState "cosmic-grid" true true
      (some [(1 : ℝ), 2, 2]) 60 bassOnlyFrame
      ⟨0, 0, 0, [(1 : ℝ), 2, 2], 0.6, 0.8, 0.5, 1, 0.6⟩ rfl rfl⟩

/-- One playlist entry: `{ file, name, url }` (the `File` handle itself
never matters to the logic modelled here). -/
structure Track where
  name : String
  url : String
deriving DecidableEq

/-- The transport globals read and written by `loadTrack`. -/
structure PlayerState where
  playlist : List Track
  currentTrackIndex : ℤ
  audioReady : Bool
  displayedTrackName : String
  audioSrc : String
deriving DecidableEq

/-- `loadTrack(index)` (part_000, lines 448-464): bail out when the
playlist is empty or audio was never initialized; wrap a negative index
to the last track and an index past the end to the first; record the
index, show the track name, and point the audio element at the track's
URL (the `play()` promise is external and async). -/
def loadTrack (st : PlayerState) (index : ℤ) : PlayerState :=
  if st.playlist.length = 0 ∨ st.audioReady = false then st
  else
    let i1 : ℤ := if index < 0 then (st.playlist.length : ℤ) - 1 else index
    let i2 : ℤ := if (st.playlist.length : ℤ) ≤ i1 then 0 else i1
    let track := st.playlist.getD i2.toNat ⟨"", ""⟩
    { st with
      currentTrackIndex := i2
      displayedTrackName := track.name
      audioSrc := track.url }

/-- Claim C10: with a non-empty playlist and audio initialized,
`loadTrack` wraps out-of-range indices: any negative index loads the last
track (`length - 1`), any index `≥ length` loads the first (0), and the
resulting `currentTrackIndex` always lies in `[0, length)` — so skipping
forward from the last track loops to the first and skipping back from the
first loops to the last. -/
theorem loadTrack_wraps (st : PlayerState) (index ineg ibig : ℤ)
    (hne : st.playlist ≠ []) (ha : st.audioReady = true)
    (hneg : ineg < 0) (hbig : (st.playlist.length : ℤ) ≤ ibig) :
    (loadTrack st ineg).currentTrackIndex = (st.playlist.length : ℤ) - 1
      ∧ (loadTrack st ibig).currentTrackIndex = 0
      ∧ 0 ≤ (loadTrack st index).currentTrackIndex
      ∧ (loadTrack st index).currentTrackIndex < (st.playlist.length : ℤ) := by
  have hL : 0 < st.playlist.length := List.length_pos.mpr hne
  have hguard : ¬(st.playlist.length = 0 ∨ st.audioReady = false) := by
    rintro (hz | hf)
    · omega
    · rw [ha] at hf
      exact absurd hf (by simp)
  refine ⟨?_, ?_, ?_, ?_⟩ <;>
    · simp only [loadTrack, if_neg hguard]
      split_ifs <;> omega

/-- Claim C10 witness: a two-track playlist; skipping back from index 0
(index -1) wraps to 1, skipping forward past the end (index 2) wraps to
0, and index 1 stays in range. -/
theorem loadTrack_wraps_witness :
    (⟨[⟨"a", "u"⟩, ⟨"b", "v"⟩], 0, true, "a", "u"⟩ : PlayerState).playlist ≠ []
      ∧ (-1 : ℤ) < 0
      ∧ (((⟨[⟨"a", "u"⟩, ⟨"b", "v"⟩], 0, true, "a", "u"⟩ : PlayerState).playlist.length : ℤ) ≤ 2)
      ∧ ((loadTrack ⟨[⟨"a", "u"⟩, ⟨"b", "v"⟩], 0, true, "a", "u"⟩ (-1)).currentTrackIndex
            = ((⟨[⟨"a", "u"⟩, ⟨"b", "v"⟩], 0, true, "a", "u"⟩ : PlayerState).playlist.length : ℤ) - 1
          ∧ (loadTrack ⟨[⟨"a", "u"⟩, ⟨"b", "v"⟩], 0, true, "a", "u"⟩ 2).currentTrackIndex = 0
          ∧ 0 ≤ (loadTrack ⟨[⟨"a", "u"⟩, ⟨"b", "v"⟩], 0, true, "a", "u"⟩ 1).currentTrackIndex
          ∧ (loadTrack ⟨[⟨"a", "u"⟩, ⟨"b", "v"⟩], 0, true, "a", "u"⟩ 1).currentTrackIndex
              < ((⟨[⟨"a", "u"⟩, ⟨"b", "v"⟩], 0, true, "a", "u"⟩ : PlayerState).playlist.length : ℤ)) :=
  ⟨by simp, by norm_num, by simp,
    loadTrack_wraps ⟨[⟨"a", "u"⟩, ⟨"b", "v"⟩], 0, true, "a", "u"⟩ 1 (-1) 2
      (by simp) rfl (by norm_num) (by simp)⟩

end MusicVisualizer
